import Mathlib

/-
Verification of the AgentBaker image-resolution core
(src/pkg/agent/bakerapi.go) against its specification.

The Go source is shallowly embedded: Go maps become association lists
(`List (String × α)` with first-match lookup — Go maps never hold a
duplicate key, so first-match and the Go semantics agree), pointers that
may be nil become `Option`, `(T, error)` returns become `Except`, and a
nil-pointer dereference (a Go runtime panic) becomes an explicit outcome
constructor.  External collaborators that live outside the embedded file
(the datamodel catalogs, the toggles override store, the template
generator, input validation) are modelled as a record of functions over
which all theorems quantify.
-/

set_option autoImplicit false

namespace AgentBaker

/-- Distro: an opaque string identifier naming an OS/image variant
(Go: `type Distro string` in package datamodel). -/
abbrev Distro := String

/-- Modelled from the spec: the customized distro classes (§3, §4.1) are three
distinguished Distro constants of package datamodel (not under src). -/
def CustomizedWindowsOSImage : Distro := "CustomizedWindowsOSImage"

/-- Modelled from the spec: the generic customized-image distro constant. -/
def CustomizedImage : Distro := "CustomizedImage"

/-- Modelled from the spec: the confidential-computing customized distro constant. -/
def CustomizedImageKata : Distro := "CustomizedImageKata"

/-- Legacy (non-SIG) image reference, keyed by distro within a cloud catalog. -/
structure OSImageConfig where
  ImageOffer : String := ""
  ImageSku : String := ""
  ImagePublisher : String := ""
  ImageVersion : String := ""
deriving DecidableEq, Repr

/-- SIG image reference; the Version field is the one an override may replace. -/
structure SigImageConfig where
  ResourceGroup : String := ""
  Gallery : String := ""
  Definition : String := ""
  Version : String := ""
deriving DecidableEq, Repr

/-- First-match lookup in an association list; embeds Go map indexing
`v, ok := m[k]` (Go maps have unique keys, so first match is the match). -/
def mapLookup {α : Type} : List (String × α) → String → Option α
  | [], _ => none
  | p :: rest, k => if p.1 = k then some p.2 else mapLookup rest k

/-- Per-region SIG catalog: five family sub-catalogs, each keyed by Distro. -/
structure SIGAzureEnvironmentSpecConfig where
  SigUbuntuImageConfig : List (Distro × SigImageConfig) := []
  SigCBLMarinerImageConfig : List (Distro × SigImageConfig) := []
  SigAzureLinuxImageConfig : List (Distro × SigImageConfig) := []
  SigWindowsImageConfig : List (Distro × SigImageConfig) := []
  SigUbuntuEdgeZoneImageConfig : List (Distro × SigImageConfig) := []
deriving Repr

/-- Agent pool profile: carries the Distro and the Windows OS flag.
Modelled from the spec (§3): the profile "carries Distro, OS flag"; the Go
method `AgentPoolProfile.IsWindows()` (datamodel, not under src) reads the
profile OS flag, which is a field independent of the Distro. -/
structure AgentPoolProfile where
  Distro : Distro
  IsWindows : Bool
deriving DecidableEq, Repr

/-- Cloud spec: identifies the deployment cloud by name. -/
structure CloudSpecConfig where
  CloudName : String
deriving DecidableEq, Repr

/-- Modelled from the spec: opaque SIG catalog selector (datamodel.SIGConfig),
only passed through to the SIG-catalog provider. -/
abbrev SIGConfig := String

/-- Container service: only its Location is read by this core. -/
structure ContainerService where
  Location : String
deriving DecidableEq, Repr

/-- Full input configuration.  TemplateFields stands for the fields consumed
only by the external template generator (spec §3). -/
structure NodeBootstrappingConfiguration where
  AgentPoolProfile : AgentPoolProfile
  CloudSpecConfig : CloudSpecConfig
  SIGConfig : SIGConfig
  ContainerService : ContainerService
  TemplateFields : String
deriving DecidableEq, Repr

/-- Environment descriptor used by the non-bootstrapping entry points. -/
structure EnvironmentInfo where
  SubscriptionID : String := ""
  TenantID : String := ""
  Region : String := ""
deriving DecidableEq, Repr

/-- Output artifact of GetNodeBootstrapping. -/
structure NodeBootstrapping where
  CustomData : String
  CSE : String
  OSImageConfig : Option OSImageConfig
  SigImageConfig : Option SigImageConfig
deriving DecidableEq, Repr

/-- Error taxonomy of the resolution operations (spec §7). -/
inductive BakerError where
  | unknownCloud (cloud : String)
  | sigResolutionFailure (msg : String)
  | imageNotFound (distro : Distro)
deriving DecidableEq, Repr

/-- Outcome of GetNodeBootstrapping: success, an error with no artifact, or a
runtime panic (nil-pointer dereference), which aborts with neither. -/
inductive BootstrapOutcome where
  | ok (nb : NodeBootstrapping)
  | err (e : BakerError)
  | panicNilSigImageConfig
deriving DecidableEq, Repr

/-- Modelled from the spec: the external collaborators and the repository code
outside src that bakerapi.go calls — the datamodel legacy catalog
`AzureCloudToOSImageMap`, the SIG-catalog provider
`GetSIGAzureCloudSpecConfig`, the toggles override store (entity builders and
`GetLinuxNodeImageVersion`), the distro family classification
`Distro.IsWindowsDistro`, the template generator, and the two input
validators (which, per §1/§3, normalize only fields consumed by the template
generator).  Every theorem quantifies over this record. -/
structure Collaborators where
  AzureCloudToOSImageMap : List (String × List (Distro × OSImageConfig))
  getSIGAzureCloudSpecConfig : SIGConfig → String → Except String SIGAzureEnvironmentSpecConfig
  entityFromConfig : NodeBootstrappingConfiguration → String
  entityFromEnvInfo : EnvironmentInfo → String
  getLinuxNodeImageVersion : String → List (String × String)
  isWindowsDistro : Distro → Bool
  getNodeBootstrappingPayload : NodeBootstrappingConfiguration → String
  getNodeBootstrappingCmd : NodeBootstrappingConfiguration → String
  validateWindowsFields : String → String
  validateLinuxFields : String → String

/-- Input validation step of GetNodeBootstrapping (bakerapi.go lines 44-48):
validateAndSetWindows/LinuxNodeBootstrappingConfiguration, modelled from the
spec as normalizing only the template-generator fields. -/
def validatedConfig (C : Collaborators) (config : NodeBootstrappingConfiguration) :
    NodeBootstrappingConfiguration :=
  if config.AgentPoolProfile.IsWindows then
    { config with TemplateFields := C.validateWindowsFields config.TemplateFields }
  else
    { config with TemplateFields := C.validateLinuxFields config.TemplateFields }

/-- The artifact before any image config is attached (bakerapi.go lines 50-54):
payload and command from the template generator, both image configs nil. -/
def baseNodeBootstrapping (C : Collaborators) (config : NodeBootstrappingConfiguration) :
    NodeBootstrapping :=
  { CustomData := C.getNodeBootstrappingPayload config
    CSE := C.getNodeBootstrappingCmd config
    OSImageConfig := none
    SigImageConfig := none }

/-- findSIGImageConfig (bakerapi.go lines 160-178): scan the five family
sub-catalogs in the fixed source order Ubuntu, CBLMariner, AzureLinux,
Windows, UbuntuEdgeZone and return the first entry keyed by the distro. -/
def findSIGImageConfig (sigConfig : SIGAzureEnvironmentSpecConfig) (distro : Distro) :
    Option SigImageConfig :=
  match mapLookup sigConfig.SigUbuntuImageConfig distro with
  | some imageConfig => some imageConfig
  | none =>
    match mapLookup sigConfig.SigCBLMarinerImageConfig distro with
    | some imageConfig => some imageConfig
    | none =>
      match mapLookup sigConfig.SigAzureLinuxImageConfig distro with
      | some imageConfig => some imageConfig
      | none =>
        match mapLookup sigConfig.SigWindowsImageConfig distro with
        | some imageConfig => some imageConfig
        | none =>
          match mapLookup sigConfig.SigUbuntuEdgeZoneImageConfig distro with
          | some imageConfig => some imageConfig
          | none => none

/-- GetNodeBootstrapping (bakerapi.go lines 42-90).  The Go statement
`nodeBootstrapping.SigImageConfig.Version = imageVersion` (line 85)
dereferences the SigImageConfig pointer; when that pointer is nil the Go
program panics, embedded here as the panicNilSigImageConfig outcome. -/
def GetNodeBootstrapping (C : Collaborators) (config0 : NodeBootstrappingConfiguration) :
    BootstrapOutcome :=
  let config := validatedConfig C config0
  let nodeBootstrapping := baseNodeBootstrapping C config
  let distro := config.AgentPoolProfile.Distro
  if distro = CustomizedWindowsOSImage ∨ distro = CustomizedImage ∨
      distro = CustomizedImageKata then
    .ok nodeBootstrapping
  else
    match mapLookup C.AzureCloudToOSImageMap config.CloudSpecConfig.CloudName with
    | none => .err (.unknownCloud config.CloudSpecConfig.CloudName)
    | some osImageConfigMap =>
      let nb1 :=
        match mapLookup osImageConfigMap distro with
        | some osImageConfig => { nodeBootstrapping with OSImageConfig := some osImageConfig }
        | none => nodeBootstrapping
      match C.getSIGAzureCloudSpecConfig config.SIGConfig config.ContainerService.Location with
      | .error msg => .err (.sigResolutionFailure msg)
      | .ok sigAzureEnvironmentSpecConfig =>
        let nb2 :=
          { nb1 with SigImageConfig := findSIGImageConfig sigAzureEnvironmentSpecConfig distro }
        if nb2.SigImageConfig = none ∧ nb2.OSImageConfig = none then
          .err (.imageNotFound distro)
        else
          if config.AgentPoolProfile.IsWindows then
            .ok nb2
          else
            match mapLookup (C.getLinuxNodeImageVersion (C.entityFromConfig config)) distro with
            | some imageVersion =>
              match nb2.SigImageConfig with
              | some sc => .ok { nb2 with SigImageConfig := some { sc with Version := imageVersion } }
              | none => .panicNilSigImageConfig
            | none => .ok nb2

/-- GetLatestSigImageConfig (bakerapi.go lines 92-112). -/
def GetLatestSigImageConfig (C : Collaborators) (sigConfig : SIGConfig) (distro : Distro)
    (envInfo : EnvironmentInfo) : Except BakerError SigImageConfig :=
  match C.getSIGAzureCloudSpecConfig sigConfig envInfo.Region with
  | .error msg => .error (.sigResolutionFailure msg)
  | .ok sigAzureEnvironmentSpecConfig =>
    match findSIGImageConfig sigAzureEnvironmentSpecConfig distro with
    | none => .error (.imageNotFound distro)
    | some sigImageConfig =>
      if C.isWindowsDistro distro then
        .ok sigImageConfig
      else
        match mapLookup (C.getLinuxNodeImageVersion (C.entityFromEnvInfo envInfo)) distro with
        | some imageVersion => .ok { sigImageConfig with Version := imageVersion }
        | none => .ok sigImageConfig

/-- Override substitution done inside each Linux loop of GetDistroSigImageConfig
(bakerapi.go lines 130-132 etc.): replace Version when the distro string key is
in the override map, otherwise keep the entry. -/
def applyLinuxOverride (overrides : List (String × String)) (distro : Distro)
    (sigConfig : SigImageConfig) : SigImageConfig :=
  match mapLookup overrides distro with
  | some version => { sigConfig with Version := version }
  | none => sigConfig

/-- Map a whole sub-catalog through the override substitution. -/
def withOverrides (overrides : List (String × String))
    (entries : List (Distro × SigImageConfig)) : List (Distro × SigImageConfig) :=
  entries.map (fun p => (p.1, applyLinuxOverride overrides p.1 p.2))

/-- One Go merge loop `for distro, sigConfig := range entries { m[distro] = v }`:
entries overwrite base on key collision.  Go maps carry no duplicate key, so
first-match lookup inside entries agrees with the Go loop. -/
def mergeInto {α : Type} (base entries : List (String × α)) : List (String × α) :=
  entries ++ base.filter (fun p => (mapLookup entries p.1).isNone)

/-- GetDistroSigImageConfig (bakerapi.go lines 114-158): resolve the SIG
environment, then merge the five sub-catalogs in the source order Windows,
CBLMariner, AzureLinux, Ubuntu, UbuntuEdgeZone, applying the Linux override
substitution to every loop except the Windows one. -/
def GetDistroSigImageConfig (C : Collaborators) (sigConfig : SIGConfig)
    (envInfo : EnvironmentInfo) : Except BakerError (List (Distro × SigImageConfig)) :=
  match C.getSIGAzureCloudSpecConfig sigConfig envInfo.Region with
  | .error msg => .error (.sigResolutionFailure msg)
  | .ok allAzureSigConfig =>
    let overrides := C.getLinuxNodeImageVersion (C.entityFromEnvInfo envInfo)
    let m0 := mergeInto [] allAzureSigConfig.SigWindowsImageConfig
    let m1 := mergeInto m0 (withOverrides overrides allAzureSigConfig.SigCBLMarinerImageConfig)
    let m2 := mergeInto m1 (withOverrides overrides allAzureSigConfig.SigAzureLinuxImageConfig)
    let m3 := mergeInto m2 (withOverrides overrides allAzureSigConfig.SigUbuntuImageConfig)
    let m4 := mergeInto m3 (withOverrides overrides allAzureSigConfig.SigUbuntuEdgeZoneImageConfig)
    .ok m4

/-- The three process-wide VHD inventories (package cache, not under src);
each is nil until populated, modelled as Option over opaque contents. -/
structure VHDCacheState where
  FromManifest : Option String
  FromComponentContainerImages : Option String
  FromComponentDownloadedFiles : Option String
deriving DecidableEq, Repr

/-- Snapshot of the three inventories. -/
structure CachedOnVHD where
  FromManifest : String
  FromComponentContainerImages : String
  FromComponentDownloadedFiles : String
deriving DecidableEq, Repr

/-- CacheNotInitialized error, one variant per missing inventory (spec §7). -/
inductive CacheError where
  | manifestNotAvailable
  | componentContainerImagesNotAvailable
  | componentDownloadedFilesNotAvailable
deriving DecidableEq, Repr

/-- GetCachedVersionsOnVHD (bakerapi.go lines 180-196). -/
def GetCachedVersionsOnVHD (s : VHDCacheState) : Except CacheError CachedOnVHD :=
  match s.FromManifest with
  | none => .error .manifestNotAvailable
  | some fromManifest =>
    match s.FromComponentContainerImages with
    | none => .error .componentContainerImagesNotAvailable
    | some fromComponentContainerImages =>
      match s.FromComponentDownloadedFiles with
      | none => .error .componentDownloadedFilesNotAvailable
      | some fromComponentDownloadedFiles =>
        .ok { FromManifest := fromManifest
              FromComponentContainerImages := fromComponentContainerImages
              FromComponentDownloadedFiles := fromComponentDownloadedFiles }

/-! ### Association-list lemmas -/

theorem mapLookup_append {α : Type} (l1 l2 : List (String × α)) (k : String) :
    mapLookup (l1 ++ l2) k = (mapLookup l1 k).orElse (fun _ => mapLookup l2 k) := by
  induction l1 with
  | nil => simp [mapLookup, Option.orElse]
  | cons p rest ih =>
    by_cases h : p.1 = k <;> simp [mapLookup, h, ih, Option.orElse]

theorem mapLookup_filter_of_key {α : Type} (l : List (String × α))
    (p : String × α → Bool) (k : String) (hp : ∀ v, p (k, v) = true) :
    mapLookup (l.filter p) k = mapLookup l k := by
  induction l with
  | nil => rfl
  | cons q rest ih =>
    by_cases hk : q.1 = k
    · have hq : p q = true := by
        have hqe : q = (k, q.2) := by
          cases q
          simp_all
        rw [hqe]
        exact hp q.2
      simp [List.filter_cons, hq, mapLookup, hk, ih]
    · cases hpq : p q <;> simp [List.filter_cons, hpq, mapLookup, hk, ih]

theorem mergeInto_lookup {α : Type} (base entries : List (String × α)) (k : String) :
    mapLookup (mergeInto base entries) k =
      (mapLookup entries k).orElse (fun _ => mapLookup base k) := by
  unfold mergeInto
  rw [mapLookup_append]
  cases h : mapLookup entries k with
  | some v => simp [Option.orElse]
  | none =>
    simp only [Option.orElse]
    exact mapLookup_filter_of_key base _ k (fun v => by simp [h])

theorem withOverrides_lookup (overrides : List (String × String))
    (entries : List (Distro × SigImageConfig)) (k : Distro) :
    mapLookup (withOverrides overrides entries) k =
      (mapLookup entries k).map (applyLinuxOverride overrides k) := by
  induction entries with
  | nil => rfl
  | cons p rest ih =>
    by_cases h : p.1 = k
    · simp [withOverrides, mapLookup, h]
    · simpa [withOverrides, mapLookup, h] using ih

/-! ### Validation touches only the template fields -/

theorem validatedConfig_AgentPoolProfile (C : Collaborators)
    (config : NodeBootstrappingConfiguration) :
    (validatedConfig C config).AgentPoolProfile = config.AgentPoolProfile := by
  unfold validatedConfig
  split <;> rfl

theorem validatedConfig_CloudSpecConfig (C : Collaborators)
    (config : NodeBootstrappingConfiguration) :
    (validatedConfig C config).CloudSpecConfig = config.CloudSpecConfig := by
  unfold validatedConfig
  split <;> rfl

theorem validatedConfig_SIGConfig (C : Collaborators)
    (config : NodeBootstrappingConfiguration) :
    (validatedConfig C config).SIGConfig = config.SIGConfig := by
  unfold validatedConfig
  split <;> rfl

theorem validatedConfig_ContainerService (C : Collaborators)
    (config : NodeBootstrappingConfiguration) :
    (validatedConfig C config).ContainerService = config.ContainerService := by
  unfold validatedConfig
  split <;> rfl

/-! ### C1 -/

/-- C1: findSIGImageConfig inspects the five family sub-catalogs in the fixed
order Ubuntu (general Linux), CBLMariner (immutable Linux A), AzureLinux
(immutable Linux B), Windows, UbuntuEdgeZone (region-restricted Linux) and
returns the first sub-catalog entry whose key equals the distro; a distro
present in more than one sub-catalog resolves to the entry of the first
sub-catalog in this order. -/
theorem C1_findSIGImageConfig_fixed_family_order
    (sigConfig : SIGAzureEnvironmentSpecConfig) (distro : Distro) :
    findSIGImageConfig sigConfig distro =
      ((((mapLookup sigConfig.SigUbuntuImageConfig distro).orElse
        (fun _ => mapLookup sigConfig.SigCBLMarinerImageConfig distro)).orElse
        (fun _ => mapLookup sigConfig.SigAzureLinuxImageConfig distro)).orElse
        (fun _ => mapLookup sigConfig.SigWindowsImageConfig distro)).orElse
        (fun _ => mapLookup sigConfig.SigUbuntuEdgeZoneImageConfig distro) := by
  unfold findSIGImageConfig
  cases mapLookup sigConfig.SigUbuntuImageConfig distro <;>
    cases mapLookup sigConfig.SigCBLMarinerImageConfig distro <;>
    cases mapLookup sigConfig.SigAzureLinuxImageConfig distro <;>
    cases mapLookup sigConfig.SigWindowsImageConfig distro <;>
    cases mapLookup sigConfig.SigUbuntuEdgeZoneImageConfig distro <;>
    rfl

/-! ### Characterization of GetNodeBootstrapping after both catalogs resolve -/

/-- Derived form of the tail of GetNodeBootstrapping (bakerapi.go lines 66-89)
once the legacy cloud catalog and the SIG environment have both resolved;
proved equal to the embedded function by getNodeBootstrapping_eq_resolved. -/
def resolvedOutcome (C : Collaborators) (config0 : NodeBootstrappingConfiguration)
    (osMap : List (Distro × OSImageConfig)) (sigSpec : SIGAzureEnvironmentSpecConfig) :
    BootstrapOutcome :=
  let config := validatedConfig C config0
  let distro := config0.AgentPoolProfile.Distro
  let nb2 : NodeBootstrapping :=
    { CustomData := C.getNodeBootstrappingPayload config
      CSE := C.getNodeBootstrappingCmd config
      OSImageConfig := mapLookup osMap distro
      SigImageConfig := findSIGImageConfig sigSpec distro }
  if nb2.SigImageConfig = none ∧ nb2.OSImageConfig = none then
    .err (.imageNotFound distro)
  else
    if config0.AgentPoolProfile.IsWindows then
      .ok nb2
    else
      match mapLookup (C.getLinuxNodeImageVersion (C.entityFromConfig config)) distro with
      | some imageVersion =>
        match nb2.SigImageConfig with
        | some sc => .ok { nb2 with SigImageConfig := some { sc with Version := imageVersion } }
        | none => .panicNilSigImageConfig
      | none => .ok nb2

theorem getNodeBootstrapping_eq_resolved (C : Collaborators)
    (config : NodeBootstrappingConfiguration) (osMap : List (Distro × OSImageConfig))
    (sigSpec : SIGAzureEnvironmentSpecConfig)
    (hnc : ¬(config.AgentPoolProfile.Distro = CustomizedWindowsOSImage ∨
        config.AgentPoolProfile.Distro = CustomizedImage ∨
        config.AgentPoolProfile.Distro = CustomizedImageKata))
    (hcloud : mapLookup C.AzureCloudToOSImageMap config.CloudSpecConfig.CloudName = some osMap)
    (hsig : C.getSIGAzureCloudSpecConfig config.SIGConfig config.ContainerService.Location =
      .ok sigSpec) :
    GetNodeBootstrapping C config = resolvedOutcome C config osMap sigSpec := by
  unfold GetNodeBootstrapping resolvedOutcome baseNodeBootstrapping
  simp only [validatedConfig_AgentPoolProfile, validatedConfig_CloudSpecConfig,
    validatedConfig_SIGConfig, validatedConfig_ContainerService]
  rw [if_neg hnc, hcloud, hsig]
  cases h : mapLookup osMap config.AgentPoolProfile.Distro <;> simp [h]

/-! ### C6: customized-image bypass -/

/-- C6: for a configuration whose distro is one of the three customized
classes, GetNodeBootstrapping succeeds with only the generated payload and
command populated (both image configs absent), and the outcome is unchanged
under any reinterpretation of the catalog, SIG-resolution and override
collaborators — no catalog lookup, SIG resolution or override lookup can
influence it — hence no UnknownCloud, SIGResolutionFailure or ImageNotFound
error is possible. -/
theorem C6_customized_distro_bypasses_catalogs (C : Collaborators)
    (config : NodeBootstrappingConfiguration)
    (hc : config.AgentPoolProfile.Distro = CustomizedWindowsOSImage ∨
        config.AgentPoolProfile.Distro = CustomizedImage ∨
        config.AgentPoolProfile.Distro = CustomizedImageKata) :
    GetNodeBootstrapping C config = .ok (baseNodeBootstrapping C (validatedConfig C config)) ∧
    (baseNodeBootstrapping C (validatedConfig C config)).OSImageConfig = none ∧
    (baseNodeBootstrapping C (validatedConfig C config)).SigImageConfig = none ∧
    (∀ C2 : Collaborators,
        C2.getNodeBootstrappingPayload = C.getNodeBootstrappingPayload →
        C2.getNodeBootstrappingCmd = C.getNodeBootstrappingCmd →
        C2.validateWindowsFields = C.validateWindowsFields →
        C2.validateLinuxFields = C.validateLinuxFields →
        GetNodeBootstrapping C2 config = GetNodeBootstrapping C config) := by
  have base : ∀ C3 : Collaborators,
      GetNodeBootstrapping C3 config = .ok (baseNodeBootstrapping C3 (validatedConfig C3 config)) := by
    intro C3
    unfold GetNodeBootstrapping
    simp only [validatedConfig_AgentPoolProfile]
    rw [if_pos hc]
  refine ⟨base C, rfl, rfl, ?_⟩
  intro C2 hp hcmd hvw hvl
  rw [base C2, base C]
  unfold baseNodeBootstrapping validatedConfig
  rw [hp, hcmd, hvw, hvl]

/-- Witness for C6 at a concrete customized configuration. -/
theorem C6_customized_distro_bypasses_catalogs_witness :
    GetNodeBootstrapping
        { AzureCloudToOSImageMap := []
          getSIGAzureCloudSpecConfig := fun _ _ => .error "unreachable"
          entityFromConfig := fun _ => "e"
          entityFromEnvInfo := fun _ => "e"
          getLinuxNodeImageVersion := fun _ => []
          isWindowsDistro := fun _ => false
          getNodeBootstrappingPayload := fun _ => "payload"
          getNodeBootstrappingCmd := fun _ => "cse"
          validateWindowsFields := id
          validateLinuxFields := id }
        { AgentPoolProfile := { Distro := "CustomizedImage", IsWindows := false }
          CloudSpecConfig := { CloudName := "NoSuchCloud" }
          SIGConfig := "sig"
          ContainerService := { Location := "eastus" }
          TemplateFields := "f" } =
      .ok { CustomData := "payload", CSE := "cse", OSImageConfig := none,
            SigImageConfig := none } :=
  (C6_customized_distro_bypasses_catalogs _ _ (Or.inr (Or.inl rfl))).1

/-! ### C7: unknown cloud is fatal -/

/-- C7: for every non-customized configuration whose cloud name is not a key
of the legacy per-cloud catalog, GetNodeBootstrapping returns the UnknownCloud
error carrying that cloud name — and no artifact, since the err outcome
carries none — regardless of all other fields of the configuration. -/
theorem C7_unknown_cloud_returns_error (C : Collaborators)
    (config : NodeBootstrappingConfiguration)
    (hnc : ¬(config.AgentPoolProfile.Distro = CustomizedWindowsOSImage ∨
        config.AgentPoolProfile.Distro = CustomizedImage ∨
        config.AgentPoolProfile.Distro = CustomizedImageKata))
    (hcloud : mapLookup C.AzureCloudToOSImageMap config.CloudSpecConfig.CloudName = none) :
    GetNodeBootstrapping C config = .err (.unknownCloud config.CloudSpecConfig.CloudName) := by
  unfold GetNodeBootstrapping
  simp only [validatedConfig_AgentPoolProfile, validatedConfig_CloudSpecConfig]
  rw [if_neg hnc, hcloud]

/-- Witness for C7 at a concrete configuration with an unknown cloud. -/
theorem C7_unknown_cloud_returns_error_witness :
    GetNodeBootstrapping
        { AzureCloudToOSImageMap := [("AzurePublicCloud", [])]
          getSIGAzureCloudSpecConfig := fun _ _ => .ok {}
          entityFromConfig := fun _ => "e"
          entityFromEnvInfo := fun _ => "e"
          getLinuxNodeImageVersion := fun _ => []
          isWindowsDistro := fun _ => false
          getNodeBootstrappingPayload := fun _ => "payload"
          getNodeBootstrappingCmd := fun _ => "cse"
          validateWindowsFields := id
          validateLinuxFields := id }
        { AgentPoolProfile := { Distro := "aks-ubuntu-containerd-18.04", IsWindows := false }
          CloudSpecConfig := { CloudName := "AzureGermanCloud" }
          SIGConfig := "sig"
          ContainerService := { Location := "eastus" }
          TemplateFields := "f" } =
      .err (.unknownCloud "AzureGermanCloud") :=
  C7_unknown_cloud_returns_error _ _ (by decide) (by decide)

/-! ### C2: the override step can abort the resolution -/

/-- Concrete legacy entry used by the C2 failing input. -/
def osUbuntu1804 : OSImageConfig :=
  { ImageOffer := "aks", ImageSku := "aks-ubuntu-1804", ImagePublisher := "microsoft-aks",
    ImageVersion := "2022.01.01" }

/-- Failing input for C2: collaborators whose SIG environment resolves to an
empty catalog (so only the legacy lookup can succeed) while the override store
carries a version for the distro. -/
def legacyOnlyCollab : Collaborators :=
  { AzureCloudToOSImageMap := [("AzurePublicCloud", [("aks-ubuntu-containerd-18.04", osUbuntu1804)])]
    getSIGAzureCloudSpecConfig := fun _ _ => .ok {}
    entityFromConfig := fun _ => "entity-config"
    entityFromEnvInfo := fun _ => "entity-env"
    getLinuxNodeImageVersion := fun _ => [("aks-ubuntu-containerd-18.04", "202401.09.0")]
    isWindowsDistro := fun _ => false
    getNodeBootstrappingPayload := fun _ => "payload"
    getNodeBootstrappingCmd := fun _ => "cse"
    validateWindowsFields := id
    validateLinuxFields := id }

/-- Failing input for C2: a non-Windows configuration whose distro is present
in the legacy catalog only. -/
def legacyOnlyConfig : NodeBootstrappingConfiguration :=
  { AgentPoolProfile := { Distro := "aks-ubuntu-containerd-18.04", IsWindows := false }
    CloudSpecConfig := { CloudName := "AzurePublicCloud" }
    SIGConfig := "sig"
    ContainerService := { Location := "eastus" }
    TemplateFields := "f" }

/-- C2 (code bug): when only the legacy lookup succeeds (SigImageConfig is
absent) and the override mapping contains the distro string key, the override
step of GetNodeBootstrapping dereferences the nil SigImageConfig pointer
(bakerapi.go line 85) and the resolution aborts in a panic instead of
returning the artifact, contradicting the spec sentence that this step never
fails the overall resolution. -/
theorem C2_override_step_panics_when_only_legacy_resolves :
    GetNodeBootstrapping legacyOnlyCollab legacyOnlyConfig = .panicNilSigImageConfig := by
  decide

/-! ### C5: ImageNotFound exactly when both catalogs miss the distro -/

/-- C5: for a non-customized configuration with a known cloud and a resolved
SIG environment, GetNodeBootstrapping yields the ImageNotFound error exactly
when the distro is absent from both the legacy per-cloud catalog and all five
SIG family sub-catalogs; when at least one lookup yields an entry, no
ImageNotFound error occurs. -/
theorem C5_imageNotFound_iff_both_lookups_fail (C : Collaborators)
    (config : NodeBootstrappingConfiguration) (osMap : List (Distro × OSImageConfig))
    (sigSpec : SIGAzureEnvironmentSpecConfig)
    (hnc : ¬(config.AgentPoolProfile.Distro = CustomizedWindowsOSImage ∨
        config.AgentPoolProfile.Distro = CustomizedImage ∨
        config.AgentPoolProfile.Distro = CustomizedImageKata))
    (hcloud : mapLookup C.AzureCloudToOSImageMap config.CloudSpecConfig.CloudName = some osMap)
    (hsig : C.getSIGAzureCloudSpecConfig config.SIGConfig config.ContainerService.Location =
      .ok sigSpec) :
    GetNodeBootstrapping C config = .err (.imageNotFound config.AgentPoolProfile.Distro) ↔
      (mapLookup osMap config.AgentPoolProfile.Distro = none ∧
        findSIGImageConfig sigSpec config.AgentPoolProfile.Distro = none) := by
  rw [getNodeBootstrapping_eq_resolved C config osMap sigSpec hnc hcloud hsig]
  unfold resolvedOutcome
  cases hfind : findSIGImageConfig sigSpec config.AgentPoolProfile.Distro with
  | none =>
    cases hos : mapLookup osMap config.AgentPoolProfile.Distro with
    | none => simp [hfind, hos]
    | some o =>
      simp only [hfind, hos]
      constructor
      · intro h
        by_cases hw : config.AgentPoolProfile.IsWindows
        · simp [hw] at h
        · simp only [hw] at h
          cases hov : mapLookup
              (C.getLinuxNodeImageVersion (C.entityFromConfig (validatedConfig C config)))
              config.AgentPoolProfile.Distro with
          | none => simp [hov] at h
          | some v => simp [hov] at h
      · intro h
        exact absurd h.1 (by simp)
  | some sc =>
    simp only [hfind]
    constructor
    · intro h
      by_cases hw : config.AgentPoolProfile.IsWindows
      · simp [hw] at h
      · simp only [hw] at h
        cases hov : mapLookup
            (C.getLinuxNodeImageVersion (C.entityFromConfig (validatedConfig C config)))
            config.AgentPoolProfile.Distro with
        | none => simp [hov] at h
        | some v => simp [hov] at h
    · intro h
      exact absurd h.2 (by simp)

/-- Witness for C5: a distro absent from the legacy catalog and from every SIG
sub-catalog resolves to the ImageNotFound error. -/
theorem C5_imageNotFound_iff_both_lookups_fail_witness :
    GetNodeBootstrapping
        { AzureCloudToOSImageMap := [("AzurePublicCloud", [])]
          getSIGAzureCloudSpecConfig := fun _ _ => .ok {}
          entityFromConfig := fun _ => "e"
          entityFromEnvInfo := fun _ => "e"
          getLinuxNodeImageVersion := fun _ => []
          isWindowsDistro := fun _ => false
          getNodeBootstrappingPayload := fun _ => "payload"
          getNodeBootstrappingCmd := fun _ => "cse"
          validateWindowsFields := id
          validateLinuxFields := id }
        { AgentPoolProfile := { Distro := "ghost-distro", IsWindows := false }
          CloudSpecConfig := { CloudName := "AzurePublicCloud" }
          SIGConfig := "sig"
          ContainerService := { Location := "eastus" }
          TemplateFields := "f" } =
      .err (.imageNotFound "ghost-distro") :=
  (C5_imageNotFound_iff_both_lookups_fail _ _ [] {} (by decide) (by decide)
    (by rfl)).mpr (by decide)

/-! ### Helper characterizations of the three resolution operations -/

theorem getNodeBootstrapping_found_sig (C : Collaborators)
    (config : NodeBootstrappingConfiguration) (osMap : List (Distro × OSImageConfig))
    (sigSpec : SIGAzureEnvironmentSpecConfig) (sc : SigImageConfig)
    (hnc : ¬(config.AgentPoolProfile.Distro = CustomizedWindowsOSImage ∨
        config.AgentPoolProfile.Distro = CustomizedImage ∨
        config.AgentPoolProfile.Distro = CustomizedImageKata))
    (hcloud : mapLookup C.AzureCloudToOSImageMap config.CloudSpecConfig.CloudName = some osMap)
    (hsig : C.getSIGAzureCloudSpecConfig config.SIGConfig config.ContainerService.Location =
      .ok sigSpec)
    (hfind : findSIGImageConfig sigSpec config.AgentPoolProfile.Distro = some sc) :
    GetNodeBootstrapping C config =
      .ok { CustomData := C.getNodeBootstrappingPayload (validatedConfig C config)
            CSE := C.getNodeBootstrappingCmd (validatedConfig C config)
            OSImageConfig := mapLookup osMap config.AgentPoolProfile.Distro
            SigImageConfig := some
              (if config.AgentPoolProfile.IsWindows then sc
               else applyLinuxOverride
                 (C.getLinuxNodeImageVersion (C.entityFromConfig (validatedConfig C config)))
                 config.AgentPoolProfile.Distro sc) } := by
  rw [getNodeBootstrapping_eq_resolved C config osMap sigSpec hnc hcloud hsig]
  unfold resolvedOutcome
  simp only [hfind]
  rw [if_neg (by simp)]
  cases hw : config.AgentPoolProfile.IsWindows with
  | true => simp [hw]
  | false =>
    simp only [hw, Bool.false_eq_true, if_false]
    unfold applyLinuxOverride
    cases hov : mapLookup
        (C.getLinuxNodeImageVersion (C.entityFromConfig (validatedConfig C config)))
        config.AgentPoolProfile.Distro <;> simp [hov]

theorem getLatestSigImageConfig_found (C : Collaborators) (sigSel : SIGConfig)
    (distro : Distro) (envInfo : EnvironmentInfo) (spec : SIGAzureEnvironmentSpecConfig)
    (sc : SigImageConfig)
    (hsig : C.getSIGAzureCloudSpecConfig sigSel envInfo.Region = .ok spec)
    (hfind : findSIGImageConfig spec distro = some sc) :
    GetLatestSigImageConfig C sigSel distro envInfo =
      .ok (if C.isWindowsDistro distro then sc
        else applyLinuxOverride (C.getLinuxNodeImageVersion (C.entityFromEnvInfo envInfo))
          distro sc) := by
  unfold GetLatestSigImageConfig
  rw [hsig]
  simp only [hfind]
  cases hw : C.isWindowsDistro distro with
  | true => simp [hw]
  | false =>
    simp only [hw, Bool.false_eq_true, if_false]
    unfold applyLinuxOverride
    cases hov : mapLookup (C.getLinuxNodeImageVersion (C.entityFromEnvInfo envInfo)) distro <;>
      simp [hov]

/-- Lookup semantics of the full-catalog map that GetDistroSigImageConfig
assembles: entries from the UbuntuEdgeZone batch first, then Ubuntu, then
AzureLinux, then CBLMariner (each override-substituted), then Windows (not
substituted) — i.e. the reverse of the source merge order Windows, CBLMariner,
AzureLinux, Ubuntu, UbuntuEdgeZone, because later merges overwrite earlier. -/
def assembledLookup (overrides : List (String × String))
    (spec : SIGAzureEnvironmentSpecConfig) (d : Distro) : Option SigImageConfig :=
  (mapLookup (withOverrides overrides spec.SigUbuntuEdgeZoneImageConfig) d).orElse (fun _ =>
    (mapLookup (withOverrides overrides spec.SigUbuntuImageConfig) d).orElse (fun _ =>
      (mapLookup (withOverrides overrides spec.SigAzureLinuxImageConfig) d).orElse (fun _ =>
        (mapLookup (withOverrides overrides spec.SigCBLMarinerImageConfig) d).orElse (fun _ =>
          mapLookup spec.SigWindowsImageConfig d))))

theorem getDistroSigImageConfig_lookup (C : Collaborators) (sigSel : SIGConfig)
    (envInfo : EnvironmentInfo) (spec : SIGAzureEnvironmentSpecConfig)
    (hsig : C.getSIGAzureCloudSpecConfig sigSel envInfo.Region = .ok spec) :
    ∃ m, GetDistroSigImageConfig C sigSel envInfo = .ok m ∧
      ∀ d, mapLookup m d =
        assembledLookup (C.getLinuxNodeImageVersion (C.entityFromEnvInfo envInfo)) spec d := by
  unfold GetDistroSigImageConfig
  rw [hsig]
  refine ⟨_, rfl, ?_⟩
  intro d
  unfold assembledLookup
  simp only [mergeInto_lookup]
  have hnil : mapLookup ([] : List (Distro × SigImageConfig)) d = none := rfl
  rw [hnil]
  cases mapLookup spec.SigWindowsImageConfig d <;> rfl

/-! ### C3: override gate -/

/-- Concrete Windows-family catalog entry used by the C3 inputs. -/
def winCatalogEntry : SigImageConfig :=
  { ResourceGroup := "AKS-Windows", Gallery := "AKSWindows",
    Definition := "windows-2022-containerd", Version := "20348.2227.240100" }

/-- C3 input catalog: the Windows sub-catalog holds the Windows distro. -/
def c3SigSpec : SIGAzureEnvironmentSpecConfig :=
  { SigWindowsImageConfig := [("aks-windows-2022-containerd", winCatalogEntry)] }

/-- C3 input collaborators: the distro is classified Windows and an override
for its string key is present in the override store. -/
def c3Collab : Collaborators :=
  { AzureCloudToOSImageMap := [("AzurePublicCloud", [])]
    getSIGAzureCloudSpecConfig := fun _ _ => .ok c3SigSpec
    entityFromConfig := fun _ => "e"
    entityFromEnvInfo := fun _ => "e"
    getLinuxNodeImageVersion := fun _ => [("aks-windows-2022-containerd", "20348.9999.240200")]
    isWindowsDistro := fun d => d == "aks-windows-2022-containerd"
    getNodeBootstrappingPayload := fun _ => "payload"
    getNodeBootstrappingCmd := fun _ => "cse"
    validateWindowsFields := id
    validateLinuxFields := id }

/-- C3 input configuration: the profile carries the Windows distro but its
Windows OS flag is not set. -/
def c3Config : NodeBootstrappingConfiguration :=
  { AgentPoolProfile := { Distro := "aks-windows-2022-containerd", IsWindows := false }
    CloudSpecConfig := { CloudName := "AzurePublicCloud" }
    SIGConfig := "sig"
    ContainerService := { Location := "eastus" }
    TemplateFields := "f" }

/-- C3 counterexample: "aks-windows-2022-containerd" is a Windows distro and
an override for its string key is present, yet GetNodeBootstrapping returns
the override version, not the catalog version — its gate is the profile OS
flag (here unset), not the distro classification, refuting the claim that
every resolution operation keeps the catalog version for a Windows distro. -/
theorem C3_counterexample_windows_distro_gets_override :
    c3Collab.isWindowsDistro "aks-windows-2022-containerd" = true ∧
    mapLookup (c3Collab.getLinuxNodeImageVersion (c3Collab.entityFromConfig c3Config))
      "aks-windows-2022-containerd" = some "20348.9999.240200" ∧
    findSIGImageConfig c3SigSpec "aks-windows-2022-containerd" = some winCatalogEntry ∧
    GetNodeBootstrapping c3Collab c3Config =
      .ok { CustomData := "payload", CSE := "cse", OSImageConfig := none,
            SigImageConfig := some { winCatalogEntry with Version := "20348.9999.240200" } } ∧
    winCatalogEntry.Version ≠ "20348.9999.240200" :=
  ⟨by decide, by decide, by decide, by decide, by decide⟩

/-- C3 amended: the Windows gate of the override differs per operation.
GetLatestSigImageConfig gates on the distro classification: a non-Windows
distro with a present override gets the override version and a Windows distro
keeps the catalog version.  GetNodeBootstrapping instead gates on the profile
Windows OS flag: the override is applied exactly when that flag is unset.
GetDistroSigImageConfig gates on the sub-catalog of origin: entries of the
four Linux sub-catalogs get the override substitution, entries of the Windows
sub-catalog keep the catalog version. -/
theorem C3_amended_override_gate_per_operation (C : Collaborators)
    (config : NodeBootstrappingConfiguration) (osMap : List (Distro × OSImageConfig))
    (sigSpec : SIGAzureEnvironmentSpecConfig) (sc1 : SigImageConfig)
    (sigSel : SIGConfig) (envInfo : EnvironmentInfo)
    (envSpec : SIGAzureEnvironmentSpecConfig) (distro2 : Distro) (sc2 : SigImageConfig)
    (hnc : ¬(config.AgentPoolProfile.Distro = CustomizedWindowsOSImage ∨
        config.AgentPoolProfile.Distro = CustomizedImage ∨
        config.AgentPoolProfile.Distro = CustomizedImageKata))
    (hcloud : mapLookup C.AzureCloudToOSImageMap config.CloudSpecConfig.CloudName = some osMap)
    (hsig : C.getSIGAzureCloudSpecConfig config.SIGConfig config.ContainerService.Location =
      .ok sigSpec)
    (hfind1 : findSIGImageConfig sigSpec config.AgentPoolProfile.Distro = some sc1)
    (hsig2 : C.getSIGAzureCloudSpecConfig sigSel envInfo.Region = .ok envSpec)
    (hfind2 : findSIGImageConfig envSpec distro2 = some sc2) :
    GetNodeBootstrapping C config =
      .ok { CustomData := C.getNodeBootstrappingPayload (validatedConfig C config)
            CSE := C.getNodeBootstrappingCmd (validatedConfig C config)
            OSImageConfig := mapLookup osMap config.AgentPoolProfile.Distro
            SigImageConfig := some
              (if config.AgentPoolProfile.IsWindows then sc1
               else applyLinuxOverride
                 (C.getLinuxNodeImageVersion (C.entityFromConfig (validatedConfig C config)))
                 config.AgentPoolProfile.Distro sc1) } ∧
    GetLatestSigImageConfig C sigSel distro2 envInfo =
      .ok (if C.isWindowsDistro distro2 then sc2
        else applyLinuxOverride (C.getLinuxNodeImageVersion (C.entityFromEnvInfo envInfo))
          distro2 sc2) ∧
    (∃ m, GetDistroSigImageConfig C sigSel envInfo = .ok m ∧
      ∀ d, mapLookup m d =
        assembledLookup (C.getLinuxNodeImageVersion (C.entityFromEnvInfo envInfo)) envSpec d) :=
  ⟨getNodeBootstrapping_found_sig C config osMap sigSpec sc1 hnc hcloud hsig hfind1,
   getLatestSigImageConfig_found C sigSel distro2 envInfo envSpec sc2 hsig2 hfind2,
   getDistroSigImageConfig_lookup C sigSel envInfo envSpec hsig2⟩

/-- Witness for the amended C3 at the concrete C3 inputs. -/
theorem C3_amended_override_gate_per_operation_witness :
    GetNodeBootstrapping c3Collab c3Config =
      .ok { CustomData := c3Collab.getNodeBootstrappingPayload (validatedConfig c3Collab c3Config)
            CSE := c3Collab.getNodeBootstrappingCmd (validatedConfig c3Collab c3Config)
            OSImageConfig := mapLookup [] c3Config.AgentPoolProfile.Distro
            SigImageConfig := some
              (if c3Config.AgentPoolProfile.IsWindows then winCatalogEntry
               else applyLinuxOverride
                 (c3Collab.getLinuxNodeImageVersion (c3Collab.entityFromConfig
                   (validatedConfig c3Collab c3Config)))
                 c3Config.AgentPoolProfile.Distro winCatalogEntry) } ∧
    GetLatestSigImageConfig c3Collab "sig" "aks-windows-2022-containerd" { Region := "eastus" } =
      .ok (if c3Collab.isWindowsDistro "aks-windows-2022-containerd" then winCatalogEntry
        else applyLinuxOverride
          (c3Collab.getLinuxNodeImageVersion (c3Collab.entityFromEnvInfo { Region := "eastus" }))
          "aks-windows-2022-containerd" winCatalogEntry) ∧
    (∃ m, GetDistroSigImageConfig c3Collab "sig" { Region := "eastus" } = .ok m ∧
      ∀ d, mapLookup m d =
        assembledLookup
          (c3Collab.getLinuxNodeImageVersion (c3Collab.entityFromEnvInfo { Region := "eastus" }))
          c3SigSpec d) :=
  C3_amended_override_gate_per_operation c3Collab c3Config [] c3SigSpec winCatalogEntry
    "sig" { Region := "eastus" } c3SigSpec "aks-windows-2022-containerd" winCatalogEntry
    (by decide) (by decide) (by rfl) (by decide) (by rfl) (by decide)

/-! ### C4: full-catalog merge order -/

/-- Ubuntu-family entry of the C4 collision input. -/
def ubuntuDualEntry : SigImageConfig :=
  { ResourceGroup := "AKS-Ubuntu", Gallery := "AKSUbuntu",
    Definition := "2204gen2containerd", Version := "202402.01.0" }

/-- Windows-family entry of the C4 collision input. -/
def windowsDualEntry : SigImageConfig :=
  { ResourceGroup := "AKS-Windows", Gallery := "AKSWindows",
    Definition := "windows-dual", Version := "20348.1.0" }

/-- C4 input catalog: the same distro key sits in both the Ubuntu and the
Windows sub-catalogs. -/
def c4SigSpec : SIGAzureEnvironmentSpecConfig :=
  { SigUbuntuImageConfig := [("dual-distro", ubuntuDualEntry)]
    SigWindowsImageConfig := [("dual-distro", windowsDualEntry)] }

/-- C4 input collaborators: no overrides, SIG environment resolves to the
collision catalog. -/
def c4Collab : Collaborators :=
  { AzureCloudToOSImageMap := []
    getSIGAzureCloudSpecConfig := fun _ _ => .ok c4SigSpec
    entityFromConfig := fun _ => "e"
    entityFromEnvInfo := fun _ => "e"
    getLinuxNodeImageVersion := fun _ => []
    isWindowsDistro := fun _ => false
    getNodeBootstrappingPayload := fun _ => "payload"
    getNodeBootstrappingCmd := fun _ => "cse"
    validateWindowsFields := id
    validateLinuxFields := id }

/-- C4 counterexample: a distro present in both the Ubuntu and the Windows
sub-catalogs maps, in the assembled full catalog, to the Ubuntu entry — not to
the Windows entry that the claimed merge order general-Linux, CBLMariner,
AzureLinux, Windows, UbuntuEdgeZone (later overwriting earlier) would give,
because the source merges Windows first, not fourth. -/
theorem C4_counterexample_collision_resolves_to_ubuntu :
    mapLookup c4SigSpec.SigUbuntuImageConfig "dual-distro" = some ubuntuDualEntry ∧
    mapLookup c4SigSpec.SigWindowsImageConfig "dual-distro" = some windowsDualEntry ∧
    GetDistroSigImageConfig c4Collab "sig" { Region := "eastus" } =
      .ok [("dual-distro", ubuntuDualEntry)] ∧
    ubuntuDualEntry ≠ windowsDualEntry :=
  ⟨by decide, by decide, by rfl, by decide⟩

/-- C4 amended: GetDistroSigImageConfig merges the five family sub-catalogs in
the source order Windows, immutable-Linux-A (CBLMariner), immutable-Linux-B
(AzureLinux), general-Linux (Ubuntu), region-restricted-Linux (UbuntuEdgeZone),
later merges overwriting earlier on key collision, so a distro present in two
sub-catalogs maps to the entry of the later-in-this-order family: lookup in
the assembled map follows the precedence UbuntuEdgeZone, Ubuntu, AzureLinux,
CBLMariner, Windows, with the override substitution applied to the four Linux
batches and not to the Windows batch. -/
theorem C4_amended_merge_order_windows_first (C : Collaborators) (sigSel : SIGConfig)
    (envInfo : EnvironmentInfo) (spec : SIGAzureEnvironmentSpecConfig)
    (hsig : C.getSIGAzureCloudSpecConfig sigSel envInfo.Region = .ok spec) :
    ∃ m, GetDistroSigImageConfig C sigSel envInfo = .ok m ∧
      ∀ d, mapLookup m d =
        assembledLookup (C.getLinuxNodeImageVersion (C.entityFromEnvInfo envInfo)) spec d :=
  getDistroSigImageConfig_lookup C sigSel envInfo spec hsig

/-- Witness for the amended C4 at the concrete collision input. -/
theorem C4_amended_merge_order_windows_first_witness :
    ∃ m, GetDistroSigImageConfig c4Collab "sig" { Region := "eastus" } = .ok m ∧
      ∀ d, mapLookup m d =
        assembledLookup
          (c4Collab.getLinuxNodeImageVersion (c4Collab.entityFromEnvInfo { Region := "eastus" }))
          c4SigSpec d :=
  C4_amended_merge_order_windows_first c4Collab "sig" { Region := "eastus" } c4SigSpec (by rfl)

/-! ### C9: overrides never mutate the catalog -/

/-- C9: applying an override affects only the SigImageConfig value returned to
the caller.  The catalogs of this embedding are immutable values, which is
faithful to the Go code: indexing a Go map of structs yields a copy, and
findSIGImageConfig returns a pointer to that stack copy (bakerapi.go lines
160-178), so the Version assignment of GetLatestSigImageConfig writes through
that pointer into the copy and never into a catalog entry.  Consequently the
operation returns the override version while a subsequent lookup of the same
distro against the same catalog still yields the original catalog version. -/
theorem C9_override_leaves_catalog_version (C : Collaborators) (sigSel : SIGConfig)
    (distro : Distro) (envInfo : EnvironmentInfo) (spec : SIGAzureEnvironmentSpecConfig)
    (sc : SigImageConfig) (v : String)
    (hsig : C.getSIGAzureCloudSpecConfig sigSel envInfo.Region = .ok spec)
    (hfind : findSIGImageConfig spec distro = some sc)
    (hwin : C.isWindowsDistro distro = false)
    (hov : mapLookup (C.getLinuxNodeImageVersion (C.entityFromEnvInfo envInfo)) distro = some v)
    (hne : v ≠ sc.Version) :
    GetLatestSigImageConfig C sigSel distro envInfo = .ok { sc with Version := v } ∧
    (findSIGImageConfig spec distro).map (fun c => c.Version) = some sc.Version ∧
    sc.Version ≠ v := by
  refine ⟨?_, by rw [hfind]; rfl, Ne.symm hne⟩
  rw [getLatestSigImageConfig_found C sigSel distro envInfo spec sc hsig hfind]
  simp only [hwin, Bool.false_eq_true, if_false]
  unfold applyLinuxOverride
  rw [hov]

/-- C9 concrete catalog entry. -/
def ubuntu2204Entry : SigImageConfig :=
  { ResourceGroup := "AKS-Ubuntu", Gallery := "AKSUbuntu",
    Definition := "2204gen2containerd", Version := "202401.01.0" }

/-- C9 input catalog holding the Ubuntu entry. -/
def c9SigSpec : SIGAzureEnvironmentSpecConfig :=
  { SigUbuntuImageConfig := [("aks-ubuntu-containerd-22.04", ubuntu2204Entry)] }

/-- C9 input collaborators with an override for the Ubuntu distro. -/
def c9Collab : Collaborators :=
  { AzureCloudToOSImageMap := []
    getSIGAzureCloudSpecConfig := fun _ _ => .ok c9SigSpec
    entityFromConfig := fun _ => "e"
    entityFromEnvInfo := fun _ => "e"
    getLinuxNodeImageVersion := fun _ => [("aks-ubuntu-containerd-22.04", "202402.02.0")]
    isWindowsDistro := fun _ => false
    getNodeBootstrappingPayload := fun _ => "payload"
    getNodeBootstrappingCmd := fun _ => "cse"
    validateWindowsFields := id
    validateLinuxFields := id }

/-- Witness for C9 at the concrete Ubuntu input. -/
theorem C9_override_leaves_catalog_version_witness :
    GetLatestSigImageConfig c9Collab "sig" "aks-ubuntu-containerd-22.04" { Region := "eastus" } =
      .ok { ubuntu2204Entry with Version := "202402.02.0" } ∧
    (findSIGImageConfig c9SigSpec "aks-ubuntu-containerd-22.04").map (fun c => c.Version) =
      some ubuntu2204Entry.Version ∧
    ubuntu2204Entry.Version ≠ "202402.02.0" :=
  C9_override_leaves_catalog_version c9Collab "sig" "aks-ubuntu-containerd-22.04"
    { Region := "eastus" } c9SigSpec ubuntu2204Entry "202402.02.0"
    (by rfl) (by decide) (by decide) (by decide) (by decide)

/-! ### C10: which Windows test gates the override -/

/-- C10: in GetNodeBootstrapping the override decision is gated on the agent
pool profile Windows OS flag and not on the distro itself: with the flag unset
a present override is applied whatever the distro classification says, and
with the flag set no override is applied; GetLatestSigImageConfig instead
gates on the distro Windows classification.  Each right-hand side below
mentions only the respective gate, for every classification function. -/
theorem C10_override_gate_profile_flag_not_distro (C : Collaborators)
    (config : NodeBootstrappingConfiguration) (osMap : List (Distro × OSImageConfig))
    (sigSpec : SIGAzureEnvironmentSpecConfig) (sc1 : SigImageConfig) (v1 : String)
    (sigSel : SIGConfig) (envInfo : EnvironmentInfo)
    (envSpec : SIGAzureEnvironmentSpecConfig) (distro2 : Distro) (sc2 : SigImageConfig)
    (v2 : String)
    (hnc : ¬(config.AgentPoolProfile.Distro = CustomizedWindowsOSImage ∨
        config.AgentPoolProfile.Distro = CustomizedImage ∨
        config.AgentPoolProfile.Distro = CustomizedImageKata))
    (hcloud : mapLookup C.AzureCloudToOSImageMap config.CloudSpecConfig.CloudName = some osMap)
    (hsig : C.getSIGAzureCloudSpecConfig config.SIGConfig config.ContainerService.Location =
      .ok sigSpec)
    (hfind1 : findSIGImageConfig sigSpec config.AgentPoolProfile.Distro = some sc1)
    (hov1 : mapLookup
        (C.getLinuxNodeImageVersion (C.entityFromConfig (validatedConfig C config)))
        config.AgentPoolProfile.Distro = some v1)
    (hsig2 : C.getSIGAzureCloudSpecConfig sigSel envInfo.Region = .ok envSpec)
    (hfind2 : findSIGImageConfig envSpec distro2 = some sc2)
    (hov2 : mapLookup (C.getLinuxNodeImageVersion (C.entityFromEnvInfo envInfo)) distro2 =
      some v2) :
    GetNodeBootstrapping C config =
      .ok { CustomData := C.getNodeBootstrappingPayload (validatedConfig C config)
            CSE := C.getNodeBootstrappingCmd (validatedConfig C config)
            OSImageConfig := mapLookup osMap config.AgentPoolProfile.Distro
            SigImageConfig := some
              (if config.AgentPoolProfile.IsWindows then sc1
               else { sc1 with Version := v1 }) } ∧
    GetLatestSigImageConfig C sigSel distro2 envInfo =
      .ok (if C.isWindowsDistro distro2 then sc2 else { sc2 with Version := v2 }) := by
  constructor
  · rw [getNodeBootstrapping_found_sig C config osMap sigSpec sc1 hnc hcloud hsig hfind1]
    cases hw : config.AgentPoolProfile.IsWindows with
    | true => simp [hw]
    | false =>
      simp only [hw, Bool.false_eq_true, if_false]
      unfold applyLinuxOverride
      rw [hov1]
  · rw [getLatestSigImageConfig_found C sigSel distro2 envInfo envSpec sc2 hsig2 hfind2]
    cases hw : C.isWindowsDistro distro2 with
    | true => simp [hw]
    | false =>
      simp only [hw, Bool.false_eq_true, if_false]
      unfold applyLinuxOverride
      rw [hov2]

/-- Witness for C10: the Windows-classified distro with an unset profile flag
gets the override from GetNodeBootstrapping and keeps the catalog version in
GetLatestSigImageConfig. -/
theorem C10_override_gate_profile_flag_not_distro_witness :
    GetNodeBootstrapping c3Collab c3Config =
      .ok { CustomData := c3Collab.getNodeBootstrappingPayload (validatedConfig c3Collab c3Config)
            CSE := c3Collab.getNodeBootstrappingCmd (validatedConfig c3Collab c3Config)
            OSImageConfig := mapLookup [] c3Config.AgentPoolProfile.Distro
            SigImageConfig := some
              (if c3Config.AgentPoolProfile.IsWindows then winCatalogEntry
               else { winCatalogEntry with Version := "20348.9999.240200" }) } ∧
    GetLatestSigImageConfig c3Collab "sig" "aks-windows-2022-containerd" { Region := "eastus" } =
      .ok (if c3Collab.isWindowsDistro "aks-windows-2022-containerd" then winCatalogEntry
        else { winCatalogEntry with Version := "20348.9999.240200" }) :=
  C10_override_gate_profile_flag_not_distro c3Collab c3Config [] c3SigSpec winCatalogEntry
    "20348.9999.240200" "sig" { Region := "eastus" } c3SigSpec "aks-windows-2022-containerd"
    winCatalogEntry "20348.9999.240200"
    (by decide) (by decide) (by rfl) (by decide) (by decide) (by rfl) (by decide) (by decide)

/-! ### C8: cache snapshot validation -/

/-- Inventory that each CacheNotInitialized variant identifies as missing. -/
def cacheErrorTargets (e : CacheError) (s : VHDCacheState) : Prop :=
  match e with
  | .manifestNotAvailable => s.FromManifest = none
  | .componentContainerImagesNotAvailable => s.FromComponentContainerImages = none
  | .componentDownloadedFilesNotAvailable => s.FromComponentDownloadedFiles = none

/-- C8: GetCachedVersionsOnVHD returns a CacheNotInitialized error exactly
when at least one of the three process-wide inventories is unset; any returned
error names an inventory that is indeed unset; and when all three are set the
snapshot fields are exactly the three inventories (the snapshot references the
process-wide values, equality of values in this embedding). -/
theorem C8_cache_snapshot_requires_all_inventories (s : VHDCacheState) :
    ((∃ e, GetCachedVersionsOnVHD s = .error e) ↔
      (s.FromManifest = none ∨ s.FromComponentContainerImages = none ∨
        s.FromComponentDownloadedFiles = none)) ∧
    (∀ e, GetCachedVersionsOnVHD s = .error e → cacheErrorTargets e s) ∧
    (∀ r, GetCachedVersionsOnVHD s = .ok r →
      s.FromManifest = some r.FromManifest ∧
      s.FromComponentContainerImages = some r.FromComponentContainerImages ∧
      s.FromComponentDownloadedFiles = some r.FromComponentDownloadedFiles) := by
  obtain ⟨m, ci, df⟩ := s
  cases m <;> cases ci <;> cases df <;>
    simp [GetCachedVersionsOnVHD, cacheErrorTargets]

/-- Witness for C8: an unset manifest inventory produces an error. -/
theorem C8_cache_snapshot_requires_all_inventories_witness :
    ∃ e, GetCachedVersionsOnVHD
        { FromManifest := none, FromComponentContainerImages := some "images",
          FromComponentDownloadedFiles := some "files" } = .error e :=
  (C8_cache_snapshot_requires_all_inventories _).1.mpr (Or.inl rfl)

end AgentBaker
